import Mathlib

/-
Verification of the HLK-LD2451 radar protocol engine (Radar.py).

Shallow embedding of the protocol core: the frame synchronizer
(serial_reader inner loop), the target-frame and config-frame decoders
(parse_target_frame, parse_config_frame), the command encoder
(frame-building expressions), and the write-command sequencer
(send_write_config_command over serial_write_and_log).

Bytes are modelled as Nat (Python bytes objects hold values 0..255; where
a property depends on byte range the theorem carries an explicit bound).
Queue puts (self.data_queue.put) are modelled as lists of structured
messages; the free-text payload of each log string is abstracted to a
constructor carrying the data the string interpolates.  The cartesian
x/y fields of a target reading are computed with floating-point trig in
the source and are display-only; they are omitted from the embedded
record.
-/

set_option maxRecDepth 100000

namespace LD2451

-- Frame family constants (Radar.py lines 18-23).
def TARGET_FRAME_HEADER : List Nat := [0xF4, 0xF3, 0xF2, 0xF1]

def TARGET_FRAME_TAIL : List Nat := [0xF8, 0xF7, 0xF6, 0xF5]

def CONFIG_HEADER : List Nat := [0xFD, 0xFC, 0xFB, 0xFA]

def CONFIG_TAIL : List Nat := [0x04, 0x03, 0x02, 0x01]

-- Command word constants (Radar.py lines 24-44).
def CONFIG_CMD_ENABLE : Nat := 0x00FF

def CONFIG_CMD_DISABLE : Nat := 0x00FE

def CONFIG_CMD_ENABLE_ACK : Nat := 0x01FF

def CONFIG_CMD_DISABLE_ACK : Nat := 0x01FE

def CONFIG_CMD_SET_TARGET_PARAMS : Nat := 0x0002

def CONFIG_CMD_SET_SENSITIVITY : Nat := 0x0003

def CONFIG_CMD_RESTART : Nat := 0x00A3

def CONFIG_CMD_READ_TARGET_PARAMS : Nat := 0x0012

def CONFIG_CMD_READ_SENSITIVITY : Nat := 0x0013

def CONFIG_CMD_READ_FIRMWARE_VERSION : Nat := 0x00A0

def CONFIG_ACK_TARGET_PARAMS : Nat := 0x0112

def CONFIG_ACK_SENSITIVITY : Nat := 0x0113

def CONFIG_ACK_FIRMWARE_VERSION : Nat := 0x01A0

/-- The two frame families sharing the transport. -/
inductive Family where
  | target
  | config
deriving DecidableEq, Repr

/-- One decoded target record (Radar.py lines 381-388).  The x_m / y_m
floating-point cartesian projection is omitted (display-only trig). -/
structure TargetReading where
  angle_deg : Int
  distance_m : Nat
  speed_kmh : Int
  snr : Nat
deriving DecidableEq, Repr

/-- Log tag, the first element of a ("log", (tag, text)) queue put. -/
inductive Tag where
  | sent
  | recv
  | info
  | error
deriving DecidableEq, Repr

/-- Structured stand-in for the free-text log strings; each constructor
carries exactly the data the corresponding format string interpolates. -/
inductive LogEvent where
  | invalidTargetFrame
  | invalidConfigFrame
  | receivedFrame (fam : Family) (bytes : List Nat)
  | receivedTargetParams (dist dir speed delay : Nat)
  | receivedSensitivity (count snr : Nat)
  | configEnabledInfo
  | configDisabledInfo
  | receivedFirmwareVersion (v : Nat)
  | unknownConfigResponse (code : Nat)
  | sentFrame (bytes : List Nat)
  | notConnected
  | serialWriteError
  | bufferOverflowFlush
  | startingConfigSequence
  | configCommandCompleted
deriving DecidableEq, Repr

/-- One self.data_queue.put message. -/
inductive Msg where
  | log (tag : Tag) (ev : LogEvent)
  | targets (ts : List TargetReading)
  | configTargetParams (dist dir speed delay : Nat)
  | configSensitivity (count snr : Nat)
  | configModeEnabled
  | configModeDisabled
  | configFirmwareVersion (v : Nat)
deriving DecidableEq, Repr

/-- Python bytes.startswith: pat is an initial segment of buf. -/
def startsWith : List Nat → List Nat → Bool
  | _, [] => true
  | [], _ :: _ => false
  | b :: bs, p :: ps => b == p && startsWith bs ps

/-- Python bytes.endswith: pat is a final segment of buf. -/
def endsWith (buf pat : List Nat) : Bool :=
  startsWith (buf.drop (buf.length - pat.length)) pat

/-- Decode one 5-byte target record at offset (Radar.py lines 364-374):
angle_raw minus 0x80, raw distance, speed magnitude from the low byte
negated when the high byte is 1, raw snr. -/
def decodeOne (frame : List Nat) (offset : Nat) : TargetReading :=
  let angle_raw := frame.getD offset 0
  let dist_raw := frame.getD (offset + 1) 0
  let speed_raw := (frame.getD (offset + 2) 0) <<< 8 ||| frame.getD (offset + 3) 0
  let snr := frame.getD (offset + 4) 0
  { angle_deg := (angle_raw : Int) - 0x80
    distance_m := dist_raw
    speed_kmh :=
      if speed_raw >>> 8 == 1 then -((speed_raw &&& 0xFF : Nat) : Int)
      else ((speed_raw &&& 0xFF : Nat) : Int)
    snr := snr }

/-- The per-target loop of parse_target_frame (Radar.py lines 360-389):
the counter runs over range(num_targets) and the loop breaks as soon as
fewer than 5 bytes remain before the trailing 4-byte tail margin. -/
def decodeLoop (frame : List Nat) (offset : Nat) : Nat → List TargetReading
  | 0 => []
  | n + 1 =>
    if frame.length - 4 < offset + 5 then []
    else decodeOne frame offset :: decodeLoop frame (offset + 5) n

/-- parse_target_frame (Radar.py lines 336-393) as the list of queue puts
it performs.  The length field at bytes 4-5 is read by the source but
unused; the alarm byte at 7 is skipped. -/
def parse_target_frame (frame : List Nat) : List Msg :=
  if ¬(startsWith frame TARGET_FRAME_HEADER && endsWith frame TARGET_FRAME_TAIL) then
    [.log .error .invalidTargetFrame]
  else if frame.length < 12 then []
  else
    [.targets (decodeLoop frame 8 (frame.getD 6 0))]

/-- parse_config_frame (Radar.py lines 395-435) as the list of queue puts
it performs.  The command word is the little-endian u16 at bytes 6-7. -/
def parse_config_frame (frame : List Nat) : List Msg :=
  if ¬(startsWith frame CONFIG_HEADER && endsWith frame CONFIG_TAIL) then
    [.log .error .invalidConfigFrame]
  else if frame.length < 12 then []
  else
    let cmd := frame.getD 6 0 + 256 * frame.getD 7 0
    if cmd = CONFIG_ACK_TARGET_PARAMS ∧ 16 ≤ frame.length then
      [.configTargetParams (frame.getD 10 0) (frame.getD 11 0) (frame.getD 12 0) (frame.getD 13 0),
       .log .info (.receivedTargetParams (frame.getD 10 0) (frame.getD 11 0)
         (frame.getD 12 0) (frame.getD 13 0))]
    else if cmd = CONFIG_ACK_SENSITIVITY ∧ 16 ≤ frame.length then
      [.configSensitivity (frame.getD 10 0) (frame.getD 11 0),
       .log .info (.receivedSensitivity (frame.getD 10 0) (frame.getD 11 0))]
    else if cmd = CONFIG_CMD_ENABLE_ACK then
      [.configModeEnabled, .log .info .configEnabledInfo]
    else if cmd = CONFIG_CMD_DISABLE_ACK then
      [.configModeDisabled, .log .info .configDisabledInfo]
    else if cmd = CONFIG_ACK_FIRMWARE_VERSION then
      [.configFirmwareVersion (frame.getD 10 0 + 256 * frame.getD 11 0),
       .log .info (.receivedFirmwareVersion (frame.getD 10 0 + 256 * frame.getD 11 0))]
    else
      [.log .info (.unknownConfigResponse cmd)]

/-- Python bytes.find: index of the first occurrence of pat in buf, as
an Option instead of the -1 sentinel. -/
def find? : List Nat → List Nat → Option Nat
  | [], pat => if startsWith [] pat then some 0 else none
  | b :: rest, pat =>
    if startsWith (b :: rest) pat then some 0
    else (find? rest pat).map (· + 1)

/-- Python bytes.find(pat, start): first occurrence at index ≥ start. -/
def findFrom? (buf pat : List Nat) (start : Nat) : Option Nat :=
  (find? (buf.drop start) pat).map (· + start)

/-- Outcome of one iteration of the synchronizer loop body
(Radar.py lines 290-327). -/
inductive SyncAction where
  | emit (fam : Family) (start stop : Nat) (frame rest : List Nat)
  | wait
  | flush (rest : List Nat)
deriving DecidableEq, Repr

/-- The span buffer[start:stop]. -/
def frameAt (buf : List Nat) (start stop : Nat) : List Nat :=
  (buf.drop start).take (stop - start)

/-- Target branch (Radar.py lines 296-307): search the target tail from
start + 4; on success the frame is buffer[start : end + 4] and the
buffer remainder begins at end + 4; otherwise wait for more data. -/
def emitTarget (buf : List Nat) (start : Nat) : SyncAction :=
  match findFrom? buf TARGET_FRAME_TAIL (start + 4) with
  | some e => .emit .target start (e + 4) (frameAt buf start (e + 4)) (buf.drop (e + 4))
  | none => .wait

/-- Config branch (Radar.py lines 309-320), symmetric to emitTarget. -/
def emitConfig (buf : List Nat) (start : Nat) : SyncAction :=
  match findFrom? buf CONFIG_TAIL (start + 4) with
  | some e => .emit .config start (e + 4) (frameAt buf start (e + 4)) (buf.drop (e + 4))
  | none => .wait

/-- Else branch (Radar.py lines 322-327): when neither header was found,
keep only the last 256 bytes if the buffer exceeds 256 bytes. -/
def overflowCheck (buf : List Nat) : SyncAction :=
  if 256 < buf.length then .flush (buf.drop (buf.length - 256)) else .wait

/-- One pass of the synchronizer dispatch (Radar.py lines 292-327):
the branch condition target_start != -1 and (config_start == -1 or
target_start < config_start) selects the target family, the symmetric
elif selects config, and everything else falls to the overflow check. -/
def syncStep (buf : List Nat) : SyncAction :=
  match find? buf TARGET_FRAME_HEADER, find? buf CONFIG_HEADER with
  | some t, some c =>
    if t < c then emitTarget buf t
    else if c < t then emitConfig buf c
    else overflowCheck buf
  | some t, none => emitTarget buf t
  | none, some c => emitConfig buf c
  | none, none => overflowCheck buf

/-- Queue puts performed by one synchronizer pass: an emitted frame is
logged as received and then parsed; a flush logs the overflow error;
waiting puts nothing. -/
def syncMsgs : SyncAction → List Msg
  | .emit .target _ _ fr _ => .log .recv (.receivedFrame .target fr) :: parse_target_frame fr
  | .emit .config _ _ fr _ => .log .recv (.receivedFrame .config fr) :: parse_config_frame fr
  | .wait => []
  | .flush _ => [.log .error .bufferOverflowFlush]

/-- Observable actions of the write path: a transport write attempt or a
queue put. -/
inductive Action where
  | write (frame : List Nat)
  | put (m : Msg)
deriving DecidableEq, Repr

/-- struct.pack of a little-endian u16 as two bytes. -/
def le16 (n : Nat) : List Nat := [n % 256, n / 256 % 256]

/-- The fixed enable frame (Radar.py line 535). -/
def enable_frame : List Nat :=
  CONFIG_HEADER ++ [0x02, 0x00] ++ le16 CONFIG_CMD_ENABLE ++ CONFIG_TAIL

/-- The fixed disable frame (Radar.py line 545). -/
def disable_frame : List Nat :=
  CONFIG_HEADER ++ [0x02, 0x00] ++ le16 CONFIG_CMD_DISABLE ++ CONFIG_TAIL

/-- Outbound write frame built by send_write_config_command
(Radar.py lines 539-541): length field is len(args) + 2, payload is the
command word followed by the argument bytes. -/
def write_command_frame (cmd : Nat) (args : List Nat) : List Nat :=
  CONFIG_HEADER ++ le16 (args.length + 2) ++ (le16 cmd ++ args) ++ CONFIG_TAIL

/-- serial_write_and_log (Radar.py lines 496-508): returns the success
flag and the trace of actions.  The ok flag stands for whether the
transport write raises; the write action marks the attempt, and a raised
error is caught and logged, never propagated. -/
def serial_write_and_log (connected : Bool) (ok : Bool) (frame : List Nat) :
    Bool × List Action :=
  if !connected then (false, [.put (.log .error .notConnected)])
  else if ok then (true, [.write frame, .put (.log .sent (.sentFrame frame))])
  else (false, [.write frame, .put (.log .error .serialWriteError)])

/-- The three write steps of a write-command invocation. -/
inductive Step where
  | enable
  | payload
  | disable
deriving DecidableEq, Repr

/-- send_write_config_command (Radar.py lines 528-553): enable frame,
then the payload frame, then the disable frame, each through
serial_write_and_log, returning False as soon as one write fails.  The
result carries the success flag, the action trace, and the list of steps
whose write was attempted.  The fixed time.sleep pacing between steps is
real-time behavior outside the model. -/
def send_write_config_command (connected : Bool) (ok : Step → Bool)
    (cmd : Nat) (args : List Nat) : Bool × List Action × List Step :=
  if !connected then (false, [], [])
  else
    let pre := [Action.put (.log .info .startingConfigSequence)]
    let r1 := serial_write_and_log connected (ok .enable) enable_frame
    if !r1.1 then (false, pre ++ r1.2, [.enable])
    else
      let r2 := serial_write_and_log connected (ok .payload) (write_command_frame cmd args)
      if !r2.1 then (false, pre ++ r1.2 ++ r2.2, [.enable, .payload])
      else
        let r3 := serial_write_and_log connected (ok .disable) disable_frame
        if !r3.1 then (false, pre ++ r1.2 ++ r2.2 ++ r3.2, [.enable, .payload, .disable])
        else (true, pre ++ r1.2 ++ r2.2 ++ r3.2 ++ [.put (.log .info .configCommandCompleted)],
              [.enable, .payload, .disable])

/-- A successful find? localizes an occurrence of the pattern. -/
theorem find?_startsWith (pat : List Nat) :
    ∀ (buf : List Nat) (i : Nat), find? buf pat = some i →
      startsWith (buf.drop i) pat = true := by
  intro buf
  induction buf with
  | nil =>
    intro i h
    simp only [find?] at h
    split at h
    · next hs =>
      cases h
      simpa using hs
    · cases h
  | cons b rest ih =>
    intro i h
    simp only [find?] at h
    split at h
    · next hs =>
      cases h
      simpa using hs
    · next hs =>
      rcases Option.map_eq_some'.mp h with ⟨j, hj, rfl⟩
      simpa using ih j hj

/-- findFrom? never reports an index below its start position. -/
theorem findFrom?_le (buf pat : List Nat) (s j : Nat)
    (h : findFrom? buf pat s = some j) : s ≤ j := by
  rcases Option.map_eq_some'.mp h with ⟨i, _, rfl⟩
  omega

/-- No byte span starts with both family headers. -/
theorem header_families_disjoint (l : List Nat) :
    startsWith l TARGET_FRAME_HEADER = true →
    startsWith l CONFIG_HEADER = true → False := by
  cases l with
  | nil => simp [startsWith, TARGET_FRAME_HEADER]
  | cons b rest =>
    simp only [TARGET_FRAME_HEADER, CONFIG_HEADER, startsWith, Bool.and_eq_true, beq_iff_eq]
    intro h1 h2
    omega

/-- Shape of a target-branch emission: the family, start offset and
remainder are determined, and the frame spans at least header plus tail. -/
theorem emitTarget_emit (buf : List Nat) (s : Nat) (fam : Family) (s2 e : Nat)
    (fr rest : List Nat) (h : emitTarget buf s = .emit fam s2 e fr rest) :
    fam = .target ∧ s2 = s ∧ s + 8 ≤ e ∧ rest = buf.drop e := by
  unfold emitTarget at h
  split at h
  · next j hj =>
    have hle := findFrom?_le buf TARGET_FRAME_TAIL (s + 4) j hj
    simp only [SyncAction.emit.injEq] at h
    obtain ⟨h1, h2, h3, _, h5⟩ := h
    exact ⟨h1.symm, h2.symm, by omega, by rw [← h3]; exact h5.symm⟩
  · cases h

/-- Shape of a config-branch emission, symmetric to emitTarget_emit. -/
theorem emitConfig_emit (buf : List Nat) (s : Nat) (fam : Family) (s2 e : Nat)
    (fr rest : List Nat) (h : emitConfig buf s = .emit fam s2 e fr rest) :
    fam = .config ∧ s2 = s ∧ s + 8 ≤ e ∧ rest = buf.drop e := by
  unfold emitConfig at h
  split at h
  · next j hj =>
    have hle := findFrom?_le buf CONFIG_TAIL (s + 4) j hj
    simp only [SyncAction.emit.injEq] at h
    obtain ⟨h1, h2, h3, _, h5⟩ := h
    exact ⟨h1.symm, h2.symm, by omega, by rw [← h3]; exact h5.symm⟩
  · cases h

/-- The overflow branch never emits a frame. -/
theorem overflowCheck_ne_emit (buf : List Nat) (fam : Family) (s e : Nat)
    (fr rest : List Nat) : overflowCheck buf ≠ .emit fam s e fr rest := by
  unfold overflowCheck
  split <;> simp

/-- Any emitted frame has its stop offset at least 8 past its start, and
the remaining buffer is the original buffer cut at the stop offset. -/
theorem syncStep_emit_bounds (buf : List Nat) (fam : Family) (s e : Nat)
    (fr rest : List Nat) (h : syncStep buf = .emit fam s e fr rest) :
    s + 8 ≤ e ∧ rest = buf.drop e := by
  unfold syncStep at h
  split at h
  · split at h
    · obtain ⟨_, h2, h3, h4⟩ := emitTarget_emit buf _ fam s e fr rest h
      exact ⟨by omega, h4⟩
    · split at h
      · obtain ⟨_, h2, h3, h4⟩ := emitConfig_emit buf _ fam s e fr rest h
        exact ⟨by omega, h4⟩
      · exact absurd h (overflowCheck_ne_emit buf fam s e fr rest)
  · obtain ⟨_, h2, h3, h4⟩ := emitTarget_emit buf _ fam s e fr rest h
    exact ⟨by omega, h4⟩
  · obtain ⟨_, h2, h3, h4⟩ := emitConfig_emit buf _ fam s e fr rest h
    exact ⟨by omega, h4⟩
  · exact absurd h (overflowCheck_ne_emit buf fam s e fr rest)

/-- C1: when the buffer holds a complete frame of each family (a header
with its matching tail after it), the synchronizer emits the frame whose
header occurs at the lower byte offset, with no fixed family priority
(the two header offsets are necessarily distinct); and over repeated
extraction the emitted frames have strictly increasing start offsets in
original-buffer coordinates, since each emission consumes the buffer up
to its stop offset. -/
theorem c1_earliest_header_wins_offsets_increase
    (buf : List Nat) (t c tt ct : Nat)
    (ht : find? buf TARGET_FRAME_HEADER = some t)
    (htt : findFrom? buf TARGET_FRAME_TAIL (t + 4) = some tt)
    (hc : find? buf CONFIG_HEADER = some c)
    (hct : findFrom? buf CONFIG_TAIL (c + 4) = some ct) :
    (t < c → syncStep buf =
        .emit .target t (tt + 4) (frameAt buf t (tt + 4)) (buf.drop (tt + 4))) ∧
    (c < t → syncStep buf =
        .emit .config c (ct + 4) (frameAt buf c (ct + 4)) (buf.drop (ct + 4))) ∧
    t ≠ c ∧
    (∀ fam1 s1 e1 fr1 r1 fam2 s2 e2 fr2 r2,
        syncStep buf = .emit fam1 s1 e1 fr1 r1 →
        syncStep r1 = .emit fam2 s2 e2 fr2 r2 →
        s1 < e1 ∧ s1 < e1 + s2) := by
  have hne : t ≠ c := by
    intro he
    exact header_families_disjoint (buf.drop t)
      (find?_startsWith _ _ _ ht) (he ▸ find?_startsWith _ _ _ hc)
  refine ⟨?_, ?_, hne, ?_⟩
  · intro hlt
    simp only [syncStep, ht, hc, if_pos hlt]
    simp only [emitTarget, htt]
  · intro hlt
    simp only [syncStep, ht, hc, if_neg (by omega : ¬ t < c), if_pos hlt]
    simp only [emitConfig, hct]
  · intro fam1 s1 e1 fr1 r1 fam2 s2 e2 fr2 r2 h1 _
    have hb := syncStep_emit_bounds buf fam1 s1 e1 fr1 r1 h1
    omega

/-- Witness for C1: a buffer holding a target frame at offset 0 followed
by a config frame at offset 8; the target frame is emitted first. -/
theorem c1_witness :
    syncStep (TARGET_FRAME_HEADER ++ TARGET_FRAME_TAIL ++
        CONFIG_HEADER ++ [2, 0, 0xFF, 1] ++ CONFIG_TAIL) =
      .emit .target 0 8
        (frameAt (TARGET_FRAME_HEADER ++ TARGET_FRAME_TAIL ++
          CONFIG_HEADER ++ [2, 0, 0xFF, 1] ++ CONFIG_TAIL) 0 8)
        ((TARGET_FRAME_HEADER ++ TARGET_FRAME_TAIL ++
          CONFIG_HEADER ++ [2, 0, 0xFF, 1] ++ CONFIG_TAIL).drop 8) :=
  (c1_earliest_header_wins_offsets_increase
      (TARGET_FRAME_HEADER ++ TARGET_FRAME_TAIL ++
        CONFIG_HEADER ++ [2, 0, 0xFF, 1] ++ CONFIG_TAIL)
      0 8 4 16
      (by decide) (by decide) (by decide) (by decide)).1 (by decide)

/-- C2 counterexample: a buffer of 261 bytes that starts with the target
header but holds no tail.  The claim requires this pass to flush down to
256 bytes and emit an overflow diagnostic; the code instead waits,
leaving the buffer unchanged above the 256-byte ceiling with no
diagnostic, because the overflow branch is reached only when neither
header is present. -/
theorem c2_counterexample :
    (TARGET_FRAME_HEADER ++ List.replicate 257 0).length = 261 ∧
    syncStep (TARGET_FRAME_HEADER ++ List.replicate 257 0) = .wait ∧
    syncMsgs (syncStep (TARGET_FRAME_HEADER ++ List.replicate 257 0)) = [] := by
  refine ⟨by decide, ?_, ?_⟩ <;> decide

/-- C2 as amended: the trailing-256 flush with its single diagnostic
happens only when neither family header occurs anywhere in the buffer
and the buffer exceeds 256 bytes; when a family header is present but
its matching tail has not yet arrived (and no other header precedes a
complete frame), the pass waits and leaves the buffer unchanged, however
large it is. -/
theorem c2_flush_only_when_headerless :
    (∀ buf : List Nat,
        find? buf TARGET_FRAME_HEADER = none →
        find? buf CONFIG_HEADER = none →
        256 < buf.length →
        syncStep buf = .flush (buf.drop (buf.length - 256)) ∧
        (buf.drop (buf.length - 256)).length = 256 ∧
        syncMsgs (syncStep buf) = [.log .error .bufferOverflowFlush]) ∧
    (∀ (buf : List Nat) (t : Nat),
        find? buf TARGET_FRAME_HEADER = some t →
        findFrom? buf TARGET_FRAME_TAIL (t + 4) = none →
        find? buf CONFIG_HEADER = none →
        syncStep buf = .wait) ∧
    (∀ (buf : List Nat) (c : Nat),
        find? buf TARGET_FRAME_HEADER = none →
        find? buf CONFIG_HEADER = some c →
        findFrom? buf CONFIG_TAIL (c + 4) = none →
        syncStep buf = .wait) := by
  refine ⟨?_, ?_, ?_⟩
  · intro buf hT hC hLen
    have hstep : syncStep buf = .flush (buf.drop (buf.length - 256)) := by
      simp only [syncStep, hT, hC, overflowCheck, if_pos hLen]
    refine ⟨hstep, by simp [List.length_drop]; omega, by rw [hstep]; rfl⟩
  · intro buf t hT htail hC
    simp only [syncStep, hT, hC, emitTarget, htail]
  · intro buf c hT hC htail
    simp only [syncStep, hT, hC, emitConfig, htail]

/-- Witness for C2 as amended: 257 stray bytes with no header flush down
to the trailing 256 bytes with a single diagnostic. -/
theorem c2_witness :
    syncStep (List.replicate 257 0) = .flush ((List.replicate 257 0).drop 1) ∧
    syncMsgs (syncStep (List.replicate 257 0)) = [.log .error .bufferOverflowFlush] := by
  have h := c2_flush_only_when_headerless.1 (List.replicate 257 0)
    (by decide) (by decide) (by decide)
  exact ⟨h.1, h.2.2⟩

/-- Length of the decode loop output: with k complete 5-byte records
between the 8-byte preamble and the 4-byte tail margin, starting at
record i with m loop iterations left, exactly min m (k - i) records are
decoded. -/
theorem decodeLoop_length (frame : List Nat) (k r : Nat)
    (hLen : frame.length = 12 + 5 * k + r) (hr : r < 5) :
    ∀ m i, (decodeLoop frame (8 + 5 * i) m).length = min m (k - i) := by
  intro m
  induction m with
  | zero =>
    intro i
    simp [decodeLoop]
  | succ m ih =>
    intro i
    by_cases hik : i < k
    · have hguard : ¬ frame.length - 4 < 8 + 5 * i + 5 := by omega
      simp only [decodeLoop]
      rw [if_neg hguard]
      have harith : 8 + 5 * i + 5 = 8 + 5 * (i + 1) := by ring
      rw [List.length_cons, harith, ih (i + 1)]
      omega
    · have hguard : frame.length - 4 < 8 + 5 * i + 5 := by omega
      simp only [decodeLoop]
      rw [if_pos hguard, List.length_nil]
      omega

/-- C3: a well-formed target frame announcing n targets but holding only
k < n complete 5-byte records before the tail margin decodes to a single
targets batch of exactly k readings, with no error message. -/
theorem c3_truncated_target_records
    (frame : List Nat) (k r n : Nat)
    (hH : startsWith frame TARGET_FRAME_HEADER = true)
    (hT : endsWith frame TARGET_FRAME_TAIL = true)
    (hLen : frame.length = 12 + 5 * k + r) (hr : r < 5)
    (hN : frame.getD 6 0 = n) (hkn : k < n) :
    parse_target_frame frame = [.targets (decodeLoop frame 8 n)] ∧
    (decodeLoop frame 8 n).length = k := by
  constructor
  · have h12 : ¬ frame.length < 12 := by omega
    simp [parse_target_frame, hH, hT, h12]
    exact congrArg (decodeLoop frame 8) (by simpa using hN)
  · have h := decodeLoop_length frame k r hLen hr n 0
    simpa [min_eq_right (le_of_lt hkn)] using h

/-- Witness for C3: a 22-byte target frame with count byte 3 but only
two complete records decodes to exactly two readings. -/
theorem c3_witness :
    parse_target_frame (TARGET_FRAME_HEADER ++ [12, 0] ++ [3, 0] ++
        [0x50, 7, 1, 30, 9] ++ [0x80, 5, 0, 30, 8] ++ TARGET_FRAME_TAIL) =
      [.targets (decodeLoop (TARGET_FRAME_HEADER ++ [12, 0] ++ [3, 0] ++
        [0x50, 7, 1, 30, 9] ++ [0x80, 5, 0, 30, 8] ++ TARGET_FRAME_TAIL) 8 3)] ∧
    (decodeLoop (TARGET_FRAME_HEADER ++ [12, 0] ++ [3, 0] ++
        [0x50, 7, 1, 30, 9] ++ [0x80, 5, 0, 30, 8] ++ TARGET_FRAME_TAIL) 8 3).length = 2 :=
  c3_truncated_target_records _ 2 0 3
    (by decide) (by decide) (by decide) (by decide) (by decide) (by decide)

/-- The low byte of the 16-bit speed word assembled by shift-or. -/
theorem speed_raw_low (hi lo : Nat) (hlo : lo < 256) :
    (hi <<< 8 ||| lo) &&& 0xFF = lo := by
  rw [Nat.and_distrib_right]
  have h255 : (0xFF : Nat) = 2 ^ 8 - 1 := by norm_num
  have h1 : hi <<< 8 &&& 0xFF = 0 := by
    rw [h255, Nat.and_pow_two_sub_one_eq_mod, Nat.shiftLeft_eq, Nat.mul_mod_left]
  have h2 : lo &&& 0xFF = lo := by
    rw [h255, Nat.and_pow_two_sub_one_eq_mod]
    exact Nat.mod_eq_of_lt hlo
  rw [h1, h2]
  simp

/-- The high byte of the 16-bit speed word assembled by shift-or. -/
theorem speed_raw_high (hi lo : Nat) (hlo : lo < 256) :
    (hi <<< 8 ||| lo) >>> 8 = hi := by
  apply Nat.eq_of_testBit_eq
  intro i
  rw [Nat.testBit_shiftRight, Nat.testBit_lor, Nat.testBit_shiftLeft]
  have hlo3 : lo.testBit (8 + i) = false := by
    apply Nat.testBit_lt_two_pow
    calc lo < 256 := hlo
    _ = 2 ^ 8 := by norm_num
    _ ≤ 2 ^ (8 + i) := Nat.pow_le_pow_right (by norm_num) (by omega)
  simp [hlo3, Nat.add_sub_cancel_left]

/-- C6: the record decoder computes angle as the raw byte minus 128,
distance as the raw byte, and speed as the low byte negated exactly when
the high byte equals 1; any other high byte leaves the magnitude
positive. -/
theorem c6_record_decode_rules (frame : List Nat) (o a d hi lo s : Nat)
    (ha : frame.getD o 0 = a) (hd : frame.getD (o + 1) 0 = d)
    (hhi : frame.getD (o + 2) 0 = hi) (hlo : frame.getD (o + 3) 0 = lo)
    (hs : frame.getD (o + 4) 0 = s) (hlo2 : lo < 256) :
    decodeOne frame o =
      { angle_deg := (a : Int) - 128
        distance_m := d
        speed_kmh := if hi = 1 then -(lo : Int) else (lo : Int)
        snr := s } := by
  simp only [decodeOne, ha, hd, hhi, hlo, hs,
    speed_raw_low hi lo hlo2, speed_raw_high hi lo hlo2]
  by_cases h1 : hi = 1
  · simp [h1]
  · simp [h1]

/-- Witness for C6: angle byte 0x50 gives -48 degrees with speedHi = 1,
speedLo = 30 giving -30; angle byte 0x80 gives 0 degrees with
speedHi = 0, speedLo = 30 giving +30. -/
theorem c6_witness :
    decodeOne [0x50, 7, 1, 30, 9] 0 =
      { angle_deg := -48, distance_m := 7, speed_kmh := -30, snr := 9 } ∧
    decodeOne [0x80, 5, 0, 30, 8] 0 =
      { angle_deg := 0, distance_m := 5, speed_kmh := 30, snr := 8 } := by
  constructor
  · have h := c6_record_decode_rules [0x50, 7, 1, 30, 9] 0 0x50 7 1 30 9
      rfl rfl rfl rfl rfl (by decide)
    simpa using h
  · have h := c6_record_decode_rules [0x80, 5, 0, 30, 8] 0 0x80 5 0 30 8
      rfl rfl rfl rfl rfl (by decide)
    simpa using h

/-- C4: if any write step of a write-command invocation fails, the
invocation returns failure; and when the enable write succeeds but the
payload write fails, the disable step is never attempted, the write
error is logged rather than raised, and the result is failure. -/
theorem c4_write_failure_short_circuits
    (ok : Step → Bool) (cmd : Nat) (args : List Nat)
    (hfail : ok .enable = false ∨ ok .payload = false ∨ ok .disable = false) :
    (send_write_config_command true ok cmd args).1 = false ∧
    (ok .enable = false →
      (send_write_config_command true ok cmd args).2.2 = [.enable]) ∧
    (ok .enable = true → ok .payload = false →
      (send_write_config_command true ok cmd args).2.2 = [.enable, .payload] ∧
      Step.disable ∉ (send_write_config_command true ok cmd args).2.2 ∧
      Action.put (.log .error .serialWriteError) ∈
        (send_write_config_command true ok cmd args).2.1) := by
  cases h1 : ok .enable <;> cases h2 : ok .payload <;> cases h3 : ok .disable <;>
    simp_all [send_write_config_command, serial_write_and_log]

/-- Witness for C4: with the enable write succeeding and the payload
write failing, the invocation reports failure and only the enable and
payload steps are ever attempted. -/
theorem c4_witness :
    (send_write_config_command true (fun s => s == Step.enable) 2 [50, 2, 10, 5]).1 = false ∧
    (send_write_config_command true (fun s => s == Step.enable) 2 [50, 2, 10, 5]).2.2 =
      [.enable, .payload] := by
  have h := c4_write_failure_short_circuits (fun s => s == Step.enable) 2 [50, 2, 10, 5]
    (Or.inr (Or.inl (by decide)))
  exact ⟨h.1, (h.2.2 (by decide) (by decide)).1⟩

/-- C5 counterexample: a 12-byte config frame carrying the
ack-firmware-version command word.  Its length is below the 14 bytes the
claim says the payload needs, yet the decoder emits a FirmwareVersion
event (reading bytes 10-11, which here are tail bytes, as the value 258)
instead of returning a truncation failure with no event. -/
theorem c5_counterexample :
    (CONFIG_HEADER ++ [2, 0] ++ [0xA0, 0x01] ++ CONFIG_TAIL).length = 12 ∧
    parse_config_frame (CONFIG_HEADER ++ [2, 0] ++ [0xA0, 0x01] ++ CONFIG_TAIL) =
      [.configFirmwareVersion 258, .log .info (.receivedFirmwareVersion 258)] := by
  decide

/-- C5 as amended: an ack-target-params or ack-sensitivity frame shorter
than 16 bytes is not a decode failure; it falls through the dispatch to
the unknown-command info log, producing no config event and no error.
An ack-firmware-version frame has no length guard at all: any
well-formed config frame of length at least 12 with that command word
yields a FirmwareVersion event read from bytes 10-11, even when those
bytes overlap the tail. -/
theorem c5_short_ack_behavior :
    (∀ frame : List Nat,
        startsWith frame CONFIG_HEADER = true → endsWith frame CONFIG_TAIL = true →
        12 ≤ frame.length → frame.length < 16 →
        frame.getD 6 0 + 256 * frame.getD 7 0 = CONFIG_ACK_TARGET_PARAMS →
        parse_config_frame frame =
          [.log .info (.unknownConfigResponse CONFIG_ACK_TARGET_PARAMS)]) ∧
    (∀ frame : List Nat,
        startsWith frame CONFIG_HEADER = true → endsWith frame CONFIG_TAIL = true →
        12 ≤ frame.length → frame.length < 16 →
        frame.getD 6 0 + 256 * frame.getD 7 0 = CONFIG_ACK_SENSITIVITY →
        parse_config_frame frame =
          [.log .info (.unknownConfigResponse CONFIG_ACK_SENSITIVITY)]) ∧
    (∀ frame : List Nat,
        startsWith frame CONFIG_HEADER = true → endsWith frame CONFIG_TAIL = true →
        12 ≤ frame.length →
        frame.getD 6 0 + 256 * frame.getD 7 0 = CONFIG_ACK_FIRMWARE_VERSION →
        parse_config_frame frame =
          [.configFirmwareVersion (frame.getD 10 0 + 256 * frame.getD 11 0),
           .log .info (.receivedFirmwareVersion
             (frame.getD 10 0 + 256 * frame.getD 11 0))]) := by
  refine ⟨?_, ?_, ?_⟩
  · intro frame hH hT h12 h16 hcmd
    have hcmd' : frame[6]?.getD 0 + 256 * frame[7]?.getD 0 = CONFIG_ACK_TARGET_PARAMS := by simpa using hcmd
    have hlt : ¬ frame.length < 12 := by omega
    have h16' : ¬ 16 ≤ frame.length := by omega
    simp [parse_config_frame, hH, hT, hlt, hcmd', h16',
      CONFIG_ACK_TARGET_PARAMS, CONFIG_ACK_SENSITIVITY, CONFIG_CMD_ENABLE_ACK,
      CONFIG_CMD_DISABLE_ACK, CONFIG_ACK_FIRMWARE_VERSION]
  · intro frame hH hT h12 h16 hcmd
    have hcmd' : frame[6]?.getD 0 + 256 * frame[7]?.getD 0 = CONFIG_ACK_SENSITIVITY := by simpa using hcmd
    have hlt : ¬ frame.length < 12 := by omega
    have h16' : ¬ 16 ≤ frame.length := by omega
    simp [parse_config_frame, hH, hT, hlt, hcmd', h16',
      CONFIG_ACK_TARGET_PARAMS, CONFIG_ACK_SENSITIVITY, CONFIG_CMD_ENABLE_ACK,
      CONFIG_CMD_DISABLE_ACK, CONFIG_ACK_FIRMWARE_VERSION]
  · intro frame hH hT h12 hcmd
    have hcmd' : frame[6]?.getD 0 + 256 * frame[7]?.getD 0 = CONFIG_ACK_FIRMWARE_VERSION := by simpa using hcmd
    have hlt : ¬ frame.length < 12 := by omega
    simp [parse_config_frame, hH, hT, hlt, hcmd',
      CONFIG_ACK_TARGET_PARAMS, CONFIG_ACK_SENSITIVITY, CONFIG_CMD_ENABLE_ACK,
      CONFIG_CMD_DISABLE_ACK, CONFIG_ACK_FIRMWARE_VERSION]

/-- Witness for C5 as amended: the 12-byte ack-target-params frame is
answered with the unknown-command info log, not an error. -/
theorem c5_witness :
    parse_config_frame (CONFIG_HEADER ++ [2, 0] ++ [0x12, 0x01] ++ CONFIG_TAIL) =
      [.log .info (.unknownConfigResponse CONFIG_ACK_TARGET_PARAMS)] :=
  c5_short_ack_behavior.1 (CONFIG_HEADER ++ [2, 0] ++ [0x12, 0x01] ++ CONFIG_TAIL)
    (by decide) (by decide) (by decide) (by decide) (by decide)

/-- C7: a well-formed config frame whose command word is none of the
five recognized ack codes decodes to the unknown-command info log
carrying that command word; the log tag is info, not error. -/
theorem c7_unknown_command_not_error (frame : List Nat) (cmd : Nat)
    (hH : startsWith frame CONFIG_HEADER = true)
    (hT : endsWith frame CONFIG_TAIL = true)
    (hLen : 12 ≤ frame.length)
    (hcmd : frame.getD 6 0 + 256 * frame.getD 7 0 = cmd)
    (h1 : cmd ≠ CONFIG_ACK_TARGET_PARAMS)
    (h2 : cmd ≠ CONFIG_ACK_SENSITIVITY)
    (h3 : cmd ≠ CONFIG_CMD_ENABLE_ACK)
    (h4 : cmd ≠ CONFIG_CMD_DISABLE_ACK)
    (h5 : cmd ≠ CONFIG_ACK_FIRMWARE_VERSION) :
    parse_config_frame frame = [.log .info (.unknownConfigResponse cmd)] := by
  have hcmd' : frame[6]?.getD 0 + 256 * frame[7]?.getD 0 = cmd := by simpa using hcmd
  have hlt : ¬ frame.length < 12 := by omega
  simp [parse_config_frame, hH, hT, hlt, hcmd', h1, h2, h3, h4, h5]

/-- Witness for C7: the unknown command word 0x0199 in a well-formed
frame decodes to the unknown-command marker carrying 0x0199. -/
theorem c7_witness :
    parse_config_frame (CONFIG_HEADER ++ [2, 0] ++ [0x99, 0x01] ++ CONFIG_TAIL) =
      [.log .info (.unknownConfigResponse 0x0199)] :=
  c7_unknown_command_not_error (CONFIG_HEADER ++ [2, 0] ++ [0x99, 0x01] ++ CONFIG_TAIL)
    0x0199 (by decide) (by decide) (by decide) (by decide)
    (by decide) (by decide) (by decide) (by decide) (by decide)

/-- C8: the encoder builds the SetTargetParams write frame with length
field len(args) + 2 and payload equal to the command word followed by
the argument bytes; and decoding an ack-target-params frame carrying the
same four payload bytes at offset 10 recovers them as the report, in
particular for the arguments 50, 2, 10, 5. -/
theorem c8_encode_decode_roundtrip (a b c d : Nat) :
    write_command_frame CONFIG_CMD_SET_TARGET_PARAMS [a, b, c, d] =
      CONFIG_HEADER ++ [6, 0] ++ ([0x02, 0x00] ++ [a, b, c, d]) ++ CONFIG_TAIL ∧
    parse_config_frame
        (CONFIG_HEADER ++ [14, 0] ++ [0x12, 0x01] ++ [0, 0] ++ [a, b, c, d] ++ CONFIG_TAIL) =
      [.configTargetParams a b c d, .log .info (.receivedTargetParams a b c d)] ∧
    parse_config_frame
        (CONFIG_HEADER ++ [14, 0] ++ [0x12, 0x01] ++ [0, 0] ++ [50, 2, 10, 5] ++ CONFIG_TAIL) =
      [.configTargetParams 50 2 10 5, .log .info (.receivedTargetParams 50 2 10 5)] := by
  refine ⟨?_, rfl, rfl⟩
  simp [write_command_frame, le16, CONFIG_CMD_SET_TARGET_PARAMS]

/-- Witness for C8: the decode side of the round-trip at the concrete
arguments 50, 2, 10, 5. -/
theorem c8_witness :
    parse_config_frame
        (CONFIG_HEADER ++ [14, 0] ++ [0x12, 0x01] ++ [0, 0] ++ [50, 2, 10, 5] ++ CONFIG_TAIL) =
      [.configTargetParams 50 2 10 5, .log .info (.receivedTargetParams 50 2 10 5)] :=
  (c8_encode_decode_roundtrip 50 2 10 5).2.2

/-- C9 counterexample: the write path emits no queue put at all before
the transport write.  On a successful write the single sent record
follows the write action; on a failed write no sent record exists in
the trace at all, only the error record after the attempt. -/
theorem c9_counterexample :
    (serial_write_and_log true true enable_frame).2 =
      [.write enable_frame, .put (.log .sent (.sentFrame enable_frame))] ∧
    (serial_write_and_log true false enable_frame).2 =
      [.write enable_frame, .put (.log .error .serialWriteError)] ∧
    Action.put (.log .sent (.sentFrame enable_frame)) ∉
      (serial_write_and_log true false enable_frame).2 := by
  refine ⟨rfl, rfl, ?_⟩
  decide

/-- C9 as amended: while connected, the transport write is attempted
first; a sent log record is emitted only after a successful write, and a
failed write emits an error record with no sent record; when not
connected an error is logged and no write is attempted. -/
theorem c9_write_precedes_logging (connected ok : Bool) (frame : List Nat)
    (hconn : connected = true) :
    serial_write_and_log connected ok frame =
      (if ok then (true, [.write frame, .put (.log .sent (.sentFrame frame))])
       else (false, [.write frame, .put (.log .error .serialWriteError)])) ∧
    serial_write_and_log false ok frame =
      (false, [.put (.log .error .notConnected)]) := by
  subst hconn
  cases ok <;> exact ⟨rfl, rfl⟩

/-- Witness for C9 as amended: a concrete successful write of the
disable frame, with the sent record after the write action. -/
theorem c9_witness :
    serial_write_and_log true true disable_frame =
      (true, [.write disable_frame, .put (.log .sent (.sentFrame disable_frame))]) := by
  have h := (c9_write_precedes_logging true true disable_frame rfl).1
  simpa using h

/-- C10: a frame with the correct family header and tail but total
length below 12 bytes is dropped silently by its decoder: no readings,
no config event, no log record of any kind. -/
theorem c10_short_frames_dropped_silently :
    (∀ frame : List Nat,
        startsWith frame TARGET_FRAME_HEADER = true →
        endsWith frame TARGET_FRAME_TAIL = true →
        frame.length < 12 →
        parse_target_frame frame = []) ∧
    (∀ frame : List Nat,
        startsWith frame CONFIG_HEADER = true →
        endsWith frame CONFIG_TAIL = true →
        frame.length < 12 →
        parse_config_frame frame = []) := by
  constructor
  · intro frame h1 h2 h3
    simp [parse_target_frame, h1, h2, h3]
  · intro frame h1 h2 h3
    simp [parse_config_frame, h1, h2, h3]

/-- Witness for C10: the 8-byte header-then-tail frames of each family,
which the synchronizer can emit, decode to nothing. -/
theorem c10_witness :
    parse_target_frame (TARGET_FRAME_HEADER ++ TARGET_FRAME_TAIL) = [] ∧
    parse_config_frame (CONFIG_HEADER ++ CONFIG_TAIL) = [] ∧
    syncStep (TARGET_FRAME_HEADER ++ TARGET_FRAME_TAIL) =
      .emit .target 0 8 (TARGET_FRAME_HEADER ++ TARGET_FRAME_TAIL) [] :=
  ⟨c10_short_frames_dropped_silently.1 (TARGET_FRAME_HEADER ++ TARGET_FRAME_TAIL)
      (by decide) (by decide) (by decide),
   c10_short_frames_dropped_silently.2 (CONFIG_HEADER ++ CONFIG_TAIL)
      (by decide) (by decide) (by decide),
   by decide⟩

end LD2451
